import Mathlib

/-!
Shallow embedding of the outfit-history state machine of
personal-ai-portrait-studio. The App component state and its event handlers
come from src/App.tsx; the generation-service response handling comes from
the service module (handleApiResponse). Each asynchronous handler is modelled
as a pure function over the component state that receives the awaited outcome
of its external generation call as an explicit `Except` parameter, reflecting
the single-in-flight, whole-operation-at-a-time semantics of the app.
-/

namespace PortraitStudio

/-- The fixed pose-instruction catalog, POSE_INSTRUCTIONS in src/App.tsx. -/
def POSE_INSTRUCTIONS : List String :=
  [ "Classic headshot, looking at camera",
    "3/4 view, smiling",
    "Side profile, looking thoughtful",
    "Arms crossed, professional look",
    "Leaning forward, confident expression",
    "Looking over shoulder towards camera",
    "Walking towards camera, casual",
    "Full-length portrait, leaning against a wall, relaxed",
    "Candid laughing shot",
    "Sitting on a stool, professional",
    "Power pose, hands on hips",
    "Hands in pockets, relaxed stance" ]

/-- Pose key for a pose index: POSE_INSTRUCTIONS[i] in the source. An
out-of-range index in JS yields the value `undefined`, which becomes the
property key "undefined" when used on a plain object. -/
def poseKey (i : Nat) : String := POSE_INSTRUCTIONS.getD i "undefined"

/-- A garment, WardrobeItem in types.ts: stable identifier, display name and
source image reference. -/
structure WardrobeItem where
  id : String
  name : String
  url : String
deriving Repr, DecidableEq

/-- One edit step of the history, OutfitLayer in types.ts: an optional
garment reference and an insertion-ordered JS object mapping pose keys to
generated images, modelled as an association list. -/
structure OutfitLayer where
  garment : Option WardrobeItem
  poseImages : List (String × String)
deriving Repr, DecidableEq

/-- Key lookup on an insertion-ordered JS object: first matching key. -/
def assocGet : List (String × String) → String → Option String
  | [], _ => none
  | p :: rest, k => if p.1 = k then some p.2 else assocGet rest k

/-- JS object assignment obj[k] = v: overwrite in place when the key is
present, append in insertion order otherwise. -/
def assocSet : List (String × String) → String → String → List (String × String)
  | [], k, v => [(k, v)]
  | p :: rest, k, v => if p.1 = k then (k, v) :: rest else p :: assocSet rest k v

/-- First inserted image of a layer: Object.values(layer.poseImages)[0]. -/
def firstPoseImage (l : OutfitLayer) : Option String :=
  l.poseImages.head?.map (fun p => p.2)

/-- JS truthiness of an optional string: undefined and "" are falsy. -/
def truthyOpt : Option String → Bool
  | some str => !str.isEmpty
  | none => false

/-- The slice of App component state that the history operations read and
write (src/App.tsx, the useState hooks). -/
structure AppState where
  modelImageUrl : Option String
  outfitHistory : List OutfitLayer
  currentOutfitIndex : Nat
  isLoading : Bool
  loadingMessage : String
  error : Option String
  currentPoseIndex : Nat
  isSheetCollapsed : Bool
  wardrobe : List WardrobeItem
deriving Repr, DecidableEq

/-- The displayImageUrl derived view in src/App.tsx: the current-pose image
of the current layer, the first available image of that layer as fallback,
and the raw model image when no history or no current layer exists. -/
def displayImageUrl (s : AppState) : Option String :=
  if s.outfitHistory.isEmpty then s.modelImageUrl
  else
    match s.outfitHistory[s.currentOutfitIndex]? with
    | none => s.modelImageUrl
    | some currentLayer =>
      match assocGet currentLayer.poseImages (poseKey s.currentPoseIndex) with
      | some img => some img
      | none => firstPoseImage currentLayer

/-- Modelled from the spec: getFriendlyErrorMessage lives in lib/utils, which
is not under src. Per the spec, generation-service failures are surfaced
verbatim-ish to the user with a friendly wrapper, falling back to a
per-operation message. -/
def getFriendlyErrorMessage (err : String) (fallback : String) : String :=
  if err.isEmpty then fallback else err

/-- handleModelFinalized in src/App.tsx: set the model image and reset the
history to a single base layer at index 0. -/
def handleModelFinalized (url : String) (s : AppState) : AppState :=
  { s with
    modelImageUrl := some url,
    outfitHistory := [{ garment := none, poseImages := [(poseKey 0, url)] }],
    currentOutfitIndex := 0 }

/-- handleStartOver in src/App.tsx: reset every piece of state. The default
wardrobe (wardrobe.ts, not under src) is a parameter. -/
def handleStartOver (defaultWardrobe : List WardrobeItem) (_s : AppState) : AppState :=
  { modelImageUrl := none, outfitHistory := [], currentOutfitIndex := 0,
    isLoading := false, loadingMessage := "", error := none,
    currentPoseIndex := 0, isSheetCollapsed := false, wardrobe := defaultWardrobe }

/-- The reuse test in handleGarmentSelect: nextLayer.garment?.id ===
garmentInfo.id, where a missing garment compares unequal to a string id. -/
def garmentIdMatches (l : OutfitLayer) (g : WardrobeItem) : Bool :=
  match l.garment with
  | some lg => lg.id == g.id
  | none => false

/-- The generation path of handleGarmentSelect in src/App.tsx: on success,
truncate the history after the current index, append the new layer seeded at
the current pose key, advance the index and register the garment in the
wardrobe when its id is not yet present; on failure, record the error. The
busy flag is cleared either way. -/
def garmentGenerate (garmentInfo : WardrobeItem) (res : Except String String)
    (s : AppState) : AppState :=
  match res with
  | .ok newImageUrl =>
    { s with
      error := none,
      outfitHistory :=
        s.outfitHistory.take (s.currentOutfitIndex + 1) ++
          [{ garment := some garmentInfo,
             poseImages := [(poseKey s.currentPoseIndex, newImageUrl)] }],
      currentOutfitIndex := s.currentOutfitIndex + 1,
      wardrobe :=
        if s.wardrobe.any (fun item => item.id == garmentInfo.id) then s.wardrobe
        else s.wardrobe ++ [garmentInfo],
      isLoading := false, loadingMessage := "" }
  | .error err =>
    { s with
      error := some (getFriendlyErrorMessage err "Failed to apply style"),
      isLoading := false, loadingMessage := "" }

/-- handleGarmentSelect in src/App.tsx, one full run of the handler; res is
the awaited generateVirtualTryOnImage outcome. Rejected while busy or without
a displayable image; when the layer right after the current index already
holds the same garment id, forward navigation only. -/
def handleGarmentSelect (garmentInfo : WardrobeItem) (res : Except String String)
    (s : AppState) : AppState :=
  if !truthyOpt (displayImageUrl s) || s.isLoading then s
  else
    match s.outfitHistory[s.currentOutfitIndex + 1]? with
    | some nextLayer =>
      if garmentIdMatches nextLayer garmentInfo then
        { s with currentOutfitIndex := s.currentOutfitIndex + 1, currentPoseIndex := 0 }
      else garmentGenerate garmentInfo res s
    | none => garmentGenerate garmentInfo res s

/-- handlePoseSelect in src/App.tsx; res is the awaited generatePoseVariation
outcome. The source dereferences outfitHistory[currentOutfitIndex] without a
guard; the arm for a missing current layer is unreachable under the index
invariant of reachable states. On failure the speculative pose index is
rolled back, so the net pose index is unchanged. -/
def handlePoseSelect (newIndex : Nat) (res : Except String String)
    (s : AppState) : AppState :=
  if s.isLoading || s.outfitHistory.isEmpty || newIndex == s.currentPoseIndex then s
  else
    match s.outfitHistory[s.currentOutfitIndex]? with
    | none => s
    | some currentLayer =>
      if (assocGet currentLayer.poseImages (poseKey newIndex)).isSome then
        { s with currentPoseIndex := newIndex }
      else if !truthyOpt (firstPoseImage currentLayer) then s
      else
        match res with
        | .ok newImageUrl =>
          { s with
            error := none,
            currentPoseIndex := newIndex,
            outfitHistory :=
              s.outfitHistory.set s.currentOutfitIndex
                { currentLayer with
                  poseImages :=
                    assocSet currentLayer.poseImages (poseKey newIndex) newImageUrl },
            isLoading := false, loadingMessage := "" }
        | .error err =>
          { s with
            error := some (getFriendlyErrorMessage err "Failed to change pose"),
            isLoading := false, loadingMessage := "" }

/-- handleImageAdjustment in src/App.tsx; res is the awaited adjustImage
outcome. The prompt and optional scene image only feed the generation call,
so they do not appear. The current layer is read inside the try block after
the await, so a missing current layer lands in the catch path. -/
def handleImageAdjustment (res : Except String String) (s : AppState) : AppState :=
  if !truthyOpt (displayImageUrl s) || s.isLoading then s
  else
    match res with
    | .ok newImageUrl =>
      match s.outfitHistory[s.currentOutfitIndex]? with
      | some currentLayer =>
        { s with
          error := none,
          outfitHistory :=
            s.outfitHistory.take (s.currentOutfitIndex + 1) ++
              [{ garment := currentLayer.garment,
                 poseImages := [(poseKey s.currentPoseIndex, newImageUrl)] }],
          currentOutfitIndex := s.currentOutfitIndex + 1,
          isLoading := false, loadingMessage := "" }
      | none =>
        { s with
          error := some (getFriendlyErrorMessage "TypeError" "Failed to adjust image"),
          isLoading := false, loadingMessage := "" }
    | .error err =>
      { s with
        error := some (getFriendlyErrorMessage err "Failed to adjust image"),
        isLoading := false, loadingMessage := "" }

/-- handleRegenerate in src/App.tsx; res is the awaited generatePoseVariation
outcome. Overwrites the current-pose entry of the current layer in place. -/
def handleRegenerate (res : Except String String) (s : AppState) : AppState :=
  if s.isLoading || s.outfitHistory.isEmpty then s
  else
    match s.outfitHistory[s.currentOutfitIndex]? with
    | none => s
    | some currentLayer =>
      if !truthyOpt (firstPoseImage currentLayer) then
        { s with error := some "No base image available to regenerate from." }
      else
        match res with
        | .ok newImageUrl =>
          { s with
            error := none,
            outfitHistory :=
              s.outfitHistory.set s.currentOutfitIndex
                { currentLayer with
                  poseImages :=
                    assocSet currentLayer.poseImages (poseKey s.currentPoseIndex) newImageUrl },
            isLoading := false, loadingMessage := "" }
        | .error err =>
          { s with
            error := some (getFriendlyErrorMessage err "Failed to regenerate portrait"),
            isLoading := false, loadingMessage := "" }

/-- handleUndo in src/App.tsx. -/
def handleUndo (s : AppState) : AppState :=
  if 0 < s.currentOutfitIndex then
    { s with currentOutfitIndex := s.currentOutfitIndex - 1 }
  else s

/-- handleRedo in src/App.tsx. The source condition currentOutfitIndex <
outfitHistory.length - 1 over JS numbers coincides with
currentOutfitIndex + 1 < length over naturals, including the empty history
where the JS bound is -1. -/
def handleRedo (s : AppState) : AppState :=
  if s.currentOutfitIndex + 1 < s.outfitHistory.length then
    { s with currentOutfitIndex := s.currentOutfitIndex + 1 }
  else s

/-- One user-level operation, carrying the outcome of its external generation
call when it makes one. -/
inductive Op where
  | modelFinalized (url : String)
  | startOver
  | garmentSelect (garmentInfo : WardrobeItem) (res : Except String String)
  | poseSelect (newIndex : Nat) (res : Except String String)
  | imageAdjustment (res : Except String String)
  | regenerate (res : Except String String)
  | undo
  | redo

/-- Run one operation against the state. -/
def step (defaultWardrobe : List WardrobeItem) : Op → AppState → AppState
  | .modelFinalized url, s => handleModelFinalized url s
  | .startOver, s => handleStartOver defaultWardrobe s
  | .garmentSelect g res, s => handleGarmentSelect g res s
  | .poseSelect i res, s => handlePoseSelect i res s
  | .imageAdjustment res, s => handleImageAdjustment res s
  | .regenerate res, s => handleRegenerate res s
  | .undo, s => handleUndo s
  | .redo, s => handleRedo s

/-- The state the App component mounts with. -/
def initState (defaultWardrobe : List WardrobeItem) : AppState :=
  { modelImageUrl := none, outfitHistory := [], currentOutfitIndex := 0,
    isLoading := false, loadingMessage := "", error := none,
    currentPoseIndex := 0, isSheetCollapsed := false, wardrobe := defaultWardrobe }

/-- Run a sequence of operations from a state. -/
def applyOps (defaultWardrobe : List WardrobeItem) (ops : List Op) (s : AppState) : AppState :=
  ops.foldl (fun t op => step defaultWardrobe op t) s

/-- Whether an operation is a garment-apply or an image-adjustment. -/
def isGAOp : Op → Bool
  | .garmentSelect _ _ => true
  | .imageAdjustment _ => true
  | _ => false

/-! Generation-service response handling (handleApiResponse in the service
module). The response shape mirrors the fields the source reads from
GenerateContentResponse. -/

/-- Inline image payload of a response part. -/
structure InlineData where
  mimeType : String
  data : String
deriving Repr, DecidableEq

/-- One part of a candidate content: the source only reads inlineData. -/
structure ResponsePart where
  inlineData : Option InlineData
deriving Repr, DecidableEq

/-- Candidate content: an optional parts array. -/
structure CandidateContent where
  parts : Option (List ResponsePart)
deriving Repr, DecidableEq

/-- One response candidate: the source reads content and finishReason. -/
structure Candidate where
  content : Option CandidateContent
  finishReason : Option String
deriving Repr, DecidableEq

/-- Prompt feedback: block reason and optional message. -/
structure PromptFeedback where
  blockReason : Option String
  blockReasonMessage : Option String
deriving Repr, DecidableEq

/-- The slice of GenerateContentResponse the source reads. -/
structure GenResponse where
  promptFeedback : Option PromptFeedback
  candidates : Option (List Candidate)
  text : Option String
deriving Repr, DecidableEq

/-- The three failure shapes handleApiResponse can throw, each carrying the
data its error message is built from. -/
inductive ApiFailure where
  | blocked (reason : String) (message : Option String)
  | halted (finishReason : String)
  | noImage (textFeedback : Option String)
deriving Repr, DecidableEq

/-- The truthy block reason of the response: response.promptFeedback?.blockReason
with JS truthiness, so a missing feedback, missing reason or empty string all
count as no block reason. -/
def blockReasonOf (r : GenResponse) : Option String :=
  match r.promptFeedback with
  | some fb =>
    match fb.blockReason with
    | some br => if br.isEmpty then none else some br
    | none => none
  | none => none

/-- The first image part of one candidate:
candidate.content?.parts?.find(part => part.inlineData). -/
def candidateImage (c : Candidate) : Option InlineData :=
  (((c.content.bind (fun ct => ct.parts)).getD []).find?
    (fun p => p.inlineData.isSome)).bind (fun p => p.inlineData)

/-- The loop over response.candidates ?? []: first candidate holding an
inline image part wins. -/
def findImage : List Candidate → Option InlineData
  | [] => none
  | c :: rest =>
    match candidateImage c with
    | some d => some d
    | none => findImage rest

/-- The truthy non-STOP finish reason of the first candidate:
response.candidates?.[0]?.finishReason with JS truthiness and the
finishReason !== STOP test. -/
def finishReasonOf (r : GenResponse) : Option String :=
  match (r.candidates.getD []).head? with
  | some c =>
    match c.finishReason with
    | some fr => if fr.isEmpty || fr == "STOP" then none else some fr
    | none => none
  | none => none

/-- handleApiResponse in the service module: throw on a block reason, return
the first inline image of any candidate as a data URL, otherwise throw for a
non-STOP finish reason of the first candidate, otherwise throw the
no-image-returned failure carrying the trimmed text feedback. -/
def handleApiResponse (r : GenResponse) : Except ApiFailure String :=
  match blockReasonOf r with
  | some br => .error (.blocked br (r.promptFeedback.bind (fun fb => fb.blockReasonMessage)))
  | none =>
    match findImage (r.candidates.getD []) with
    | some d => .ok ("data:" ++ d.mimeType ++ ";base64," ++ d.data)
    | none =>
      match finishReasonOf r with
      | some fr => .error (.halted fr)
      | none => .error (.noImage (r.text.map (fun t => t.trim)))

/-- Whether some candidate of the response holds an inline image part: the
condition under which the find loop of handleApiResponse succeeds. -/
def hasInlineImage (r : GenResponse) : Bool :=
  (r.candidates.getD []).any
    (fun c => ((c.content.bind (fun ct => ct.parts)).getD []).any
      (fun p => p.inlineData.isSome))

/-- Whether the handler returned an image. -/
def isOkResult : Except ApiFailure String → Bool
  | .ok _ => true
  | .error _ => false

/-! Helper lemmas. -/

theorem truthyOpt_isSome {o : Option String} (h : truthyOpt o = true) :
    o.isSome = true := by
  cases o with
  | none => simp [truthyOpt] at h
  | some v => rfl

theorem assocGet_assocSet_self (l : List (String × String)) (k v : String) :
    assocGet (assocSet l k v) k = some v := by
  induction l with
  | nil => simp [assocSet, assocGet]
  | cons p rest ih =>
    by_cases h : p.1 = k
    · simp [assocSet, assocGet, h]
    · simp [assocSet, assocGet, h, ih]

theorem assocGet_assocSet_ne (l : List (String × String)) (k v k2 : String)
    (h : k2 ≠ k) : assocGet (assocSet l k v) k2 = assocGet l k2 := by
  induction l with
  | nil => simp [assocSet, assocGet, Ne.symm h]
  | cons p rest ih =>
    by_cases hp : p.1 = k
    · simp [assocSet, assocGet, hp, Ne.symm h]
    · simp only [assocSet, hp, if_false, assocGet]
      by_cases hp2 : p.1 = k2
      · simp [hp2]
      · simp [hp2, ih]

/-! Sample states used to instantiate the theorems below on concrete inputs. -/

/-- A concrete base layer. -/
def sampleLayer : OutfitLayer :=
  { garment := none, poseImages := [(poseKey 0, "base-image")] }

/-- A concrete garment. -/
def sampleGarment : WardrobeItem :=
  { id := "g1", name := "Blue Jacket", url := "jacket.png" }

/-- A concrete garment layer. -/
def sampleGarmentLayer : OutfitLayer :=
  { garment := some sampleGarment, poseImages := [(poseKey 0, "jacket-image")] }

/-- A concrete single-layer state. -/
def sampleState : AppState :=
  { initState [] with
    modelImageUrl := some "base-image",
    outfitHistory := [sampleLayer] }

/-- A concrete two-layer state at index 0, garment layer ahead. -/
def sampleState2 : AppState :=
  { initState [] with
    modelImageUrl := some "base-image",
    outfitHistory := [sampleLayer, sampleGarmentLayer],
    currentOutfitIndex := 0 }

/-- A concrete three-layer state at index 0, two layers ahead. -/
def sampleState3 : AppState :=
  { initState [] with
    modelImageUrl := some "base-image",
    outfitHistory := [sampleLayer, sampleGarmentLayer, sampleGarmentLayer],
    currentOutfitIndex := 0 }

/-! Claim theorems. -/

/-- C5 counterexample: handleModelFinalized does not write currentPoseIndex,
so from a state whose pose index is 3 the claimed reset to 0 fails. -/
theorem modelFinalized_poseIndex_cex :
    (handleModelFinalized "img" { initState [] with currentPoseIndex := 3 }).currentPoseIndex = 3 ∧
    (handleModelFinalized "img" { initState [] with currentPoseIndex := 3 }).currentPoseIndex ≠ 0 := by
  exact ⟨rfl, by decide⟩

/-- C5 (amended): handleModelFinalized replaces the model image, the history
(one base layer with the first pose key mapped to the base image) and the
current index (0), leaves currentPoseIndex unchanged, and calling it again
yields the same resulting state. -/
theorem modelFinalized_replaces_and_idempotent (url : String) (s : AppState) :
    handleModelFinalized url s =
      { s with
        modelImageUrl := some url,
        outfitHistory := [{ garment := none, poseImages := [(poseKey 0, url)] }],
        currentOutfitIndex := 0 } ∧
    (handleModelFinalized url s).currentPoseIndex = s.currentPoseIndex ∧
    handleModelFinalized url (handleModelFinalized url s) = handleModelFinalized url s :=
  ⟨rfl, rfl, rfl⟩

/-- C6: with a current layer whose poseImages is non-empty, displayImageUrl
is defined: it is the image under the current pose key when present, and the
first inserted image of the layer otherwise. -/
theorem displayImage_defined (s : AppState) (L : OutfitLayer)
    (hL : s.outfitHistory[s.currentOutfitIndex]? = some L)
    (hne : L.poseImages ≠ []) :
    (displayImageUrl s).isSome = true ∧
    (∀ img, assocGet L.poseImages (poseKey s.currentPoseIndex) = some img →
      displayImageUrl s = some img) ∧
    (assocGet L.poseImages (poseKey s.currentPoseIndex) = none →
      displayImageUrl s = firstPoseImage L) := by
  have hemp : s.outfitHistory.isEmpty = false := by
    cases hh : s.outfitHistory with
    | nil => rw [hh] at hL; simp at hL
    | cons a t => simp
  have hfirst : (firstPoseImage L).isSome = true := by
    cases hp : L.poseImages with
    | nil => exact absurd hp hne
    | cons a t => simp [firstPoseImage, hp]
  refine ⟨?_, ?_, ?_⟩
  · simp only [displayImageUrl, hemp, Bool.false_eq_true, if_false, hL]
    cases hget : assocGet L.poseImages (poseKey s.currentPoseIndex) with
    | none => simpa [hget] using hfirst
    | some img => simp [hget]
  · intro img hget
    simp [displayImageUrl, hemp, hL, hget]
  · intro hget
    simp [displayImageUrl, hemp, hL, hget]

/-- C6 witness at a concrete single-layer state. -/
theorem displayImage_defined_witness :
    sampleState.outfitHistory[sampleState.currentOutfitIndex]? = some sampleLayer ∧
    sampleLayer.poseImages ≠ [] ∧
    (displayImageUrl sampleState).isSome = true := by
  refine ⟨rfl, by decide, ?_⟩
  exact (displayImage_defined sampleState sampleLayer rfl (by decide)).1

/-- C2: when the layer right after the current index exists and already holds
the garment id being applied, handleGarmentSelect only advances the index by
one and resets the pose index to 0, for every possible generation outcome:
the history, the wardrobe and everything else are untouched and no generation
result is consumed. -/
theorem garment_reuse_navigates (s : AppState) (g lg : WardrobeItem)
    (res : Except String String) (nextL : OutfitLayer)
    (hnext : s.outfitHistory[s.currentOutfitIndex + 1]? = some nextL)
    (hg : nextL.garment = some lg) (hid : lg.id = g.id)
    (hdisp : truthyOpt (displayImageUrl s) = true)
    (hbusy : s.isLoading = false) :
    handleGarmentSelect g res s =
      { s with
        currentOutfitIndex := s.currentOutfitIndex + 1,
        currentPoseIndex := 0 } := by
  simp [handleGarmentSelect, hdisp, hbusy, hnext, garmentIdMatches, hg, hid]

/-- C2 witness at a concrete two-layer state. -/
theorem garment_reuse_navigates_witness :
    sampleState2.outfitHistory[sampleState2.currentOutfitIndex + 1]? = some sampleGarmentLayer ∧
    sampleGarmentLayer.garment = some sampleGarment ∧
    truthyOpt (displayImageUrl sampleState2) = true ∧
    sampleState2.isLoading = false ∧
    handleGarmentSelect sampleGarment (.error "unused") sampleState2 =
      { sampleState2 with currentOutfitIndex := 1, currentPoseIndex := 0 } := by
  refine ⟨rfl, rfl, by decide, rfl, ?_⟩
  exact garment_reuse_navigates sampleState2 sampleGarment sampleGarment
    (.error "unused") sampleGarmentLayer rfl rfl rfl (by decide) rfl

/-- C1: a successful handleImageAdjustment from index k with k + 1 < N
truncates the history to the first k + 1 layers, appends one layer that
inherits the garment of layer k and carries exactly the current pose key
mapped to the produced image, reaching length k + 2, and advances the index
to k + 1. -/
theorem adjustment_truncates_and_appends (s : AppState) (img : String) (L : OutfitLayer)
    (hL : s.outfitHistory[s.currentOutfitIndex]? = some L)
    (hk : s.currentOutfitIndex + 1 < s.outfitHistory.length)
    (hdisp : truthyOpt (displayImageUrl s) = true)
    (hbusy : s.isLoading = false) :
    (handleImageAdjustment (.ok img) s).outfitHistory =
      s.outfitHistory.take (s.currentOutfitIndex + 1) ++
        [{ garment := L.garment,
           poseImages := [(poseKey s.currentPoseIndex, img)] }] ∧
    (handleImageAdjustment (.ok img) s).outfitHistory.length = s.currentOutfitIndex + 2 ∧
    (handleImageAdjustment (.ok img) s).currentOutfitIndex = s.currentOutfitIndex + 1 := by
  refine ⟨?_, ?_, ?_⟩
  · simp [handleImageAdjustment, hdisp, hbusy, hL]
  · simp only [handleImageAdjustment, hdisp, Bool.not_true, hbusy, Bool.or_false, if_false, hL]
    simp [List.length_take]
    omega
  · simp [handleImageAdjustment, hdisp, hbusy, hL]

/-- C1 witness at a concrete three-layer state. -/
theorem adjustment_truncates_and_appends_witness :
    sampleState3.outfitHistory[sampleState3.currentOutfitIndex]? = some sampleLayer ∧
    sampleState3.currentOutfitIndex + 1 < sampleState3.outfitHistory.length ∧
    truthyOpt (displayImageUrl sampleState3) = true ∧
    sampleState3.isLoading = false ∧
    (handleImageAdjustment (.ok "adjusted") sampleState3).outfitHistory =
      [sampleLayer, { garment := sampleLayer.garment,
                      poseImages := [(poseKey 0, "adjusted")] }] ∧
    (handleImageAdjustment (.ok "adjusted") sampleState3).currentOutfitIndex = 1 := by
  have h := adjustment_truncates_and_appends sampleState3 "adjusted" sampleLayer
    rfl (by decide) (by decide) rfl
  refine ⟨rfl, by decide, by decide, rfl, ?_, h.2.2⟩
  rw [h.1]
  decide

/-- C4: when the requested pose differs from the current one, its key is
absent from the current layer and the generation call fails,
handlePoseSelect rolls the pose index back to its previous value, leaves the
history (all layers and their poseImages) untouched, records an error and
clears the busy flag. -/
theorem poseSelect_rollback (s : AppState) (q : Nat) (e : String) (L : OutfitLayer)
    (hbusy : s.isLoading = false)
    (hq : q ≠ s.currentPoseIndex)
    (hL : s.outfitHistory[s.currentOutfitIndex]? = some L)
    (habsent : assocGet L.poseImages (poseKey q) = none)
    (hbase : truthyOpt (firstPoseImage L) = true) :
    (handlePoseSelect q (.error e) s).currentPoseIndex = s.currentPoseIndex ∧
    (handlePoseSelect q (.error e) s).outfitHistory = s.outfitHistory ∧
    ((handlePoseSelect q (.error e) s).error).isSome = true ∧
    (handlePoseSelect q (.error e) s).isLoading = false := by
  have hemp : s.outfitHistory.isEmpty = false := by
    cases hh : s.outfitHistory with
    | nil => rw [hh] at hL; simp at hL
    | cons a t => simp
  have hbeq : (q == s.currentPoseIndex) = false := by
    simpa using hq
  simp [handlePoseSelect, hbusy, hemp, hbeq, hL, habsent, hbase]

/-- C4 witness at a concrete single-layer state, requesting pose 1 with a
failing generation call. -/
theorem poseSelect_rollback_witness :
    sampleState.isLoading = false ∧
    (1 : Nat) ≠ sampleState.currentPoseIndex ∧
    sampleState.outfitHistory[sampleState.currentOutfitIndex]? = some sampleLayer ∧
    assocGet sampleLayer.poseImages (poseKey 1) = none ∧
    truthyOpt (firstPoseImage sampleLayer) = true ∧
    (handlePoseSelect 1 (.error "network") sampleState).currentPoseIndex = 0 ∧
    (handlePoseSelect 1 (.error "network") sampleState).outfitHistory = sampleState.outfitHistory := by
  have h := poseSelect_rollback sampleState 1 "network" sampleLayer
    rfl (by decide) rfl (by decide) (by decide)
  exact ⟨rfl, by decide, rfl, by decide, by decide, h.1, h.2.1⟩

/-- C10: a successful handleRegenerate only overwrites the entry of the
current layer under the current pose key: the garment of that layer, every
other pose entry, every other layer, the history length, the current index
and the pose index are unchanged. -/
theorem regenerate_frame_effect (s : AppState) (img : String) (L : OutfitLayer)
    (hbusy : s.isLoading = false)
    (hL : s.outfitHistory[s.currentOutfitIndex]? = some L)
    (hbase : truthyOpt (firstPoseImage L) = true) :
    (∃ L2, (handleRegenerate (.ok img) s).outfitHistory[s.currentOutfitIndex]? = some L2 ∧
      L2.garment = L.garment ∧
      assocGet L2.poseImages (poseKey s.currentPoseIndex) = some img ∧
      ∀ k, k ≠ poseKey s.currentPoseIndex →
        assocGet L2.poseImages k = assocGet L.poseImages k) ∧
    (handleRegenerate (.ok img) s).outfitHistory.length = s.outfitHistory.length ∧
    (∀ j, j ≠ s.currentOutfitIndex →
      (handleRegenerate (.ok img) s).outfitHistory[j]? = s.outfitHistory[j]?) ∧
    (handleRegenerate (.ok img) s).currentOutfitIndex = s.currentOutfitIndex ∧
    (handleRegenerate (.ok img) s).currentPoseIndex = s.currentPoseIndex := by
  have hemp : s.outfitHistory.isEmpty = false := by
    cases hh : s.outfitHistory with
    | nil => rw [hh] at hL; simp at hL
    | cons a t => simp
  have hlt : s.currentOutfitIndex < s.outfitHistory.length :=
    (List.getElem?_eq_some_iff.mp hL).1
  refine ⟨⟨{ L with poseImages := assocSet L.poseImages (poseKey s.currentPoseIndex) img },
    ?_, rfl, assocGet_assocSet_self _ _ _, fun k hk => assocGet_assocSet_ne _ _ _ _ hk⟩,
    ?_, ?_, ?_, ?_⟩
  · simp [handleRegenerate, hbusy, hemp, hL, hbase, List.getElem?_set_self hlt]
  · simp [handleRegenerate, hbusy, hemp, hL, hbase]
  · intro j hj
    simp [handleRegenerate, hbusy, hemp, hL, hbase, List.getElem?_set_ne (Ne.symm hj)]
  · simp [handleRegenerate, hbusy, hemp, hL, hbase]
  · simp [handleRegenerate, hbusy, hemp, hL, hbase]

/-- C10 witness at a concrete two-layer state regenerating the current pose
of layer 0. -/
theorem regenerate_frame_effect_witness :
    sampleState2.isLoading = false ∧
    sampleState2.outfitHistory[sampleState2.currentOutfitIndex]? = some sampleLayer ∧
    truthyOpt (firstPoseImage sampleLayer) = true ∧
    (handleRegenerate (.ok "fresh") sampleState2).outfitHistory.length = 2 ∧
    (handleRegenerate (.ok "fresh") sampleState2).currentOutfitIndex = 0 ∧
    (handleRegenerate (.ok "fresh") sampleState2).currentPoseIndex = 0 := by
  have h := regenerate_frame_effect sampleState2 "fresh" sampleLayer rfl rfl (by decide)
  exact ⟨rfl, rfl, by decide, h.2.1, h.2.2.2.1, h.2.2.2.2⟩

/-! Response-classification lemmas for handleApiResponse. -/

theorem candidateImage_isSome_eq (c : Candidate) :
    (candidateImage c).isSome =
      ((c.content.bind (fun ct => ct.parts)).getD []).any (fun p => p.inlineData.isSome) := by
  unfold candidateImage
  cases hf : ((c.content.bind (fun ct => ct.parts)).getD []).find?
      (fun p => p.inlineData.isSome) with
  | none =>
    have hall := List.find?_eq_none.mp hf
    have hany : ((c.content.bind (fun ct => ct.parts)).getD []).any
        (fun p => p.inlineData.isSome) = false := by
      rw [List.any_eq_false]
      intro x hx
      exact fun hcon => hall x hx hcon
    simp [hany]
  | some p =>
    have h2 := List.find?_some hf
    have hpred : p.inlineData.isSome = true := h2
    have hmem := List.mem_of_find?_eq_some hf
    have hany : ((c.content.bind (fun ct => ct.parts)).getD []).any
        (fun p => p.inlineData.isSome) = true :=
      List.any_eq_true.mpr ⟨p, hmem, hpred⟩
    simp [hany, hpred]

theorem findImage_isSome_eq (cands : List Candidate) :
    (findImage cands).isSome = cands.any (fun c =>
      ((c.content.bind (fun ct => ct.parts)).getD []).any (fun p => p.inlineData.isSome)) := by
  induction cands with
  | nil => rfl
  | cons c rest ih =>
    rw [List.any_cons]
    unfold findImage
    cases hc : candidateImage c with
    | some d =>
      have := candidateImage_isSome_eq c
      rw [hc] at this
      simp [← this]
    | none =>
      have := candidateImage_isSome_eq c
      rw [hc] at this
      simp [← this, ih]

theorem hasInlineImage_eq (r : GenResponse) :
    hasInlineImage r = (findImage (r.candidates.getD [])).isSome :=
  (findImage_isSome_eq (r.candidates.getD [])).symm

theorem finishReasonOf_ne_stop {r : GenResponse} {fr : String}
    (h : finishReasonOf r = some fr) : fr ≠ "STOP" := by
  intro hstop
  subst hstop
  unfold finishReasonOf at h
  split at h
  · split at h
    · split at h
      · simp at h
      · rename_i hcond
        obtain rfl : _ = "STOP" := Option.some.inj h
        simp at hcond
    · simp at h
  · simp at h

/-- A response carrying both a block reason and an inline image part in its
candidate. -/
def blockedWithImage : GenResponse :=
  { promptFeedback := some { blockReason := some "SAFETY", blockReasonMessage := none },
    candidates := some
      [ { content := some
            { parts := some [ { inlineData := some { mimeType := "image/png", data := "QUJD" } } ] },
          finishReason := some "STOP" } ],
    text := none }

/-- C9 counterexample: a response whose candidate holds an inline image part
but whose prompt feedback holds a block reason makes handleApiResponse fail
with the content-blocked classification, so returning an image is not
equivalent to the presence of an inline image part. -/
theorem apiResponse_image_iff_cex :
    hasInlineImage blockedWithImage = true ∧
    handleApiResponse blockedWithImage = .error (.blocked "SAFETY" none) ∧
    isOkResult (handleApiResponse blockedWithImage) = false := by
  refine ⟨by decide, rfl, by decide⟩

/-- C9 (amended): handleApiResponse returns an image exactly when no truthy
block reason is present and some candidate holds an inline image part; every
other case fails, classified as exactly one of content-blocked (truthy block
reason present), generation-halted (truthy non-STOP finish reason of the
first candidate) or no-image-returned (no inline image, no such finish
reason). -/
theorem apiResponse_classification (r : GenResponse) :
    isOkResult (handleApiResponse r) = ((blockReasonOf r).isNone && hasInlineImage r) ∧
    (match handleApiResponse r with
     | .ok _ => True
     | .error (.blocked br _) => blockReasonOf r = some br
     | .error (.halted fr) => finishReasonOf r = some fr ∧ fr ≠ "STOP"
     | .error (.noImage _) => hasInlineImage r = false ∧ finishReasonOf r = none) := by
  cases hb : blockReasonOf r with
  | some br =>
    have hmain : handleApiResponse r =
        .error (.blocked br (r.promptFeedback.bind (fun fb => fb.blockReasonMessage))) := by
      unfold handleApiResponse; rw [hb]
    rw [hmain]
    exact ⟨by simp [isOkResult], rfl⟩
  | none =>
    cases hf : findImage (r.candidates.getD []) with
    | some d =>
      have hmain : handleApiResponse r = .ok ("data:" ++ d.mimeType ++ ";base64," ++ d.data) := by
        unfold handleApiResponse; rw [hb, hf]
      have himg : hasInlineImage r = true := by simp [hasInlineImage_eq, hf]
      rw [hmain]
      exact ⟨by simp [isOkResult, himg], trivial⟩
    | none =>
      have himg : hasInlineImage r = false := by simp [hasInlineImage_eq, hf]
      cases hr : finishReasonOf r with
      | some fr =>
        have hmain : handleApiResponse r = .error (.halted fr) := by
          unfold handleApiResponse; rw [hb, hf, hr]
        rw [hmain]
        exact ⟨by simp [isOkResult, himg], rfl, finishReasonOf_ne_stop hr⟩
      | none =>
        have hmain : handleApiResponse r = .error (.noImage (r.text.map (fun t => t.trim))) := by
          unfold handleApiResponse; rw [hb, hf, hr]
        rw [hmain]
        exact ⟨by simp [isOkResult, himg], himg, rfl⟩

/-! Index invariant of reachable states. -/

/-- The structural invariant the handlers maintain: a present model image
implies a non-empty history, and a non-empty history keeps the current index
strictly below its length. -/
def historyIndexInv (s : AppState) : Prop :=
  (s.modelImageUrl.isSome = true → s.outfitHistory ≠ []) ∧
  (s.outfitHistory ≠ [] → s.currentOutfitIndex < s.outfitHistory.length)

theorem inv_congr {s s2 : AppState}
    (hm : s2.modelImageUrl = s.modelImageUrl)
    (hl : s2.outfitHistory.length = s.outfitHistory.length)
    (hi : s2.currentOutfitIndex = s.currentOutfitIndex)
    (hinv : historyIndexInv s) : historyIndexInv s2 := by
  have hne : s2.outfitHistory ≠ [] ↔ s.outfitHistory ≠ [] := by
    rw [← List.length_pos, ← List.length_pos, hl]
  constructor
  · intro h
    exact hne.mpr (hinv.1 (hm ▸ h))
  · intro h
    rw [hi, hl]
    exact hinv.2 (hne.mp h)

theorem displayable_bounds {s : AppState} (hinv : historyIndexInv s)
    (hdisp : truthyOpt (displayImageUrl s) = true) :
    s.outfitHistory ≠ [] ∧ s.currentOutfitIndex < s.outfitHistory.length := by
  have hne : s.outfitHistory ≠ [] := by
    intro hnil
    have hd : displayImageUrl s = s.modelImageUrl := by
      simp [displayImageUrl, hnil]
    rw [hd] at hdisp
    exact hinv.1 (truthyOpt_isSome hdisp) hnil
  exact ⟨hne, hinv.2 hne⟩

theorem inv_modelFinalized (url : String) (s : AppState) :
    historyIndexInv (handleModelFinalized url s) := by
  constructor <;> simp [handleModelFinalized]

theorem inv_startOver (dw : List WardrobeItem) (s : AppState) :
    historyIndexInv (handleStartOver dw s) := by
  constructor <;> simp [handleStartOver]

theorem inv_garmentGenerate (g : WardrobeItem) (res : Except String String)
    {s : AppState} (hlt : s.currentOutfitIndex < s.outfitHistory.length)
    (hinv : historyIndexInv s) :
    historyIndexInv (garmentGenerate g res s) := by
  cases res with
  | ok img =>
    constructor
    · intro _
      simp [garmentGenerate]
    · intro _
      simp only [garmentGenerate, List.length_append, List.length_take]
      simp
      omega
  | error e => exact inv_congr rfl rfl rfl hinv

theorem guard_truthy {s : AppState}
    (hguard : ¬((!truthyOpt (displayImageUrl s) || s.isLoading) = true)) :
    truthyOpt (displayImageUrl s) = true := by
  by_contra hcon
  apply hguard
  have hfalse : truthyOpt (displayImageUrl s) = false := Bool.eq_false_iff.mpr hcon
  simp [hfalse]

theorem inv_garmentSelect (g : WardrobeItem) (res : Except String String)
    {s : AppState} (hinv : historyIndexInv s) :
    historyIndexInv (handleGarmentSelect g res s) := by
  unfold handleGarmentSelect
  split
  · exact hinv
  · rename_i hguard
    obtain ⟨hne, hlt⟩ := displayable_bounds hinv (guard_truthy hguard)
    split
    · rename_i nextL hnext
      split
      · refine ⟨fun _ => hne, fun _ => ?_⟩
        exact (List.getElem?_eq_some_iff.mp hnext).1
      · exact inv_garmentGenerate g res hlt hinv
    · exact inv_garmentGenerate g res hlt hinv

theorem inv_poseSelect (i : Nat) (res : Except String String) {s : AppState}
    (hinv : historyIndexInv s) : historyIndexInv (handlePoseSelect i res s) := by
  unfold handlePoseSelect
  split
  · exact hinv
  · split
    · exact hinv
    · split
      · exact inv_congr rfl rfl rfl hinv
      · split
        · exact inv_congr rfl rfl rfl hinv
        · split
          · refine inv_congr ?_ ?_ ?_ hinv <;> simp
          · exact inv_congr rfl rfl rfl hinv

theorem inv_imageAdjustment (res : Except String String) {s : AppState}
    (hinv : historyIndexInv s) : historyIndexInv (handleImageAdjustment res s) := by
  unfold handleImageAdjustment
  split
  · exact hinv
  · rename_i hguard
    obtain ⟨hne, hlt⟩ := displayable_bounds hinv (guard_truthy hguard)
    split
    · split
      · constructor
        · intro _
          simp
        · intro _
          simp [List.length_take]
          omega
      · refine inv_congr ?_ ?_ ?_ hinv <;> simp
    · refine inv_congr ?_ ?_ ?_ hinv <;> simp

theorem inv_regenerate (res : Except String String) {s : AppState}
    (hinv : historyIndexInv s) : historyIndexInv (handleRegenerate res s) := by
  unfold handleRegenerate
  split
  · exact hinv
  · split
    · exact hinv
    · split
      · exact inv_congr rfl rfl rfl hinv
      · split
        · refine inv_congr ?_ ?_ ?_ hinv <;> simp
        · exact inv_congr rfl rfl rfl hinv

theorem inv_undo {s : AppState} (hinv : historyIndexInv s) :
    historyIndexInv (handleUndo s) := by
  unfold handleUndo
  split
  · exact ⟨hinv.1, fun h => lt_of_le_of_lt (Nat.sub_le _ _) (hinv.2 h)⟩
  · exact hinv

theorem inv_redo {s : AppState} (hinv : historyIndexInv s) :
    historyIndexInv (handleRedo s) := by
  unfold handleRedo
  split
  · next h => exact ⟨hinv.1, fun _ => h⟩
  · exact hinv

theorem inv_step (dw : List WardrobeItem) (op : Op) {s : AppState}
    (hinv : historyIndexInv s) : historyIndexInv (step dw op s) := by
  cases op with
  | modelFinalized url => exact inv_modelFinalized url s
  | startOver => exact inv_startOver dw s
  | garmentSelect g res => exact inv_garmentSelect g res hinv
  | poseSelect i res => exact inv_poseSelect i res hinv
  | imageAdjustment res => exact inv_imageAdjustment res hinv
  | regenerate res => exact inv_regenerate res hinv
  | undo => exact inv_undo hinv
  | redo => exact inv_redo hinv

theorem inv_applyOps (dw : List WardrobeItem) (ops : List Op) {s : AppState}
    (hinv : historyIndexInv s) : historyIndexInv (applyOps dw ops s) := by
  induction ops generalizing s with
  | nil => exact hinv
  | cons op rest ih => exact ih (inv_step dw op hinv)

/-- C7: in every state reachable from the initial state by any sequence of
the modelled operations, a non-empty history keeps currentOutfitIndex
strictly below the history length. -/
theorem reachable_index_valid (dw : List WardrobeItem) (ops : List Op)
    (hne : (applyOps dw ops (initState dw)).outfitHistory ≠ []) :
    (applyOps dw ops (initState dw)).currentOutfitIndex <
      (applyOps dw ops (initState dw)).outfitHistory.length := by
  have hinit : historyIndexInv (initState dw) := by
    constructor <;> simp [initState]
  exact (inv_applyOps dw ops hinit).2 hne

/-- C7 witness on the sequence that finalizes a base model image. -/
theorem reachable_index_valid_witness :
    (applyOps [] [Op.modelFinalized "base"] (initState [])).outfitHistory ≠ [] ∧
    (applyOps [] [Op.modelFinalized "base"] (initState [])).currentOutfitIndex <
      (applyOps [] [Op.modelFinalized "base"] (initState [])).outfitHistory.length := by
  refine ⟨by decide, reachable_index_valid [] [Op.modelFinalized "base"] (by decide)⟩

/-! Wardrobe dedup invariant. -/

theorem handlePoseSelect_wardrobe (i : Nat) (res : Except String String) (s : AppState) :
    (handlePoseSelect i res s).wardrobe = s.wardrobe := by
  unfold handlePoseSelect
  split
  · rfl
  · split
    · rfl
    · split
      · rfl
      · split
        · rfl
        · split <;> rfl

theorem handleImageAdjustment_wardrobe (res : Except String String) (s : AppState) :
    (handleImageAdjustment res s).wardrobe = s.wardrobe := by
  unfold handleImageAdjustment
  split
  · rfl
  · split
    · split <;> rfl
    · rfl

theorem handleRegenerate_wardrobe (res : Except String String) (s : AppState) :
    (handleRegenerate res s).wardrobe = s.wardrobe := by
  unfold handleRegenerate
  split
  · rfl
  · split
    · rfl
    · split
      · rfl
      · split <;> rfl

theorem handleUndo_wardrobe (s : AppState) : (handleUndo s).wardrobe = s.wardrobe := by
  unfold handleUndo
  split <;> rfl

theorem handleRedo_wardrobe (s : AppState) : (handleRedo s).wardrobe = s.wardrobe := by
  unfold handleRedo
  split <;> rfl

theorem garmentGenerate_wardrobe_countP (g : WardrobeItem) (res : Except String String)
    (s : AppState) (gid : String)
    (hs : s.wardrobe.countP (fun w => w.id == gid) ≤ 1) :
    (garmentGenerate g res s).wardrobe.countP (fun w => w.id == gid) ≤ 1 := by
  cases res with
  | error e => exact hs
  | ok img =>
    show (if s.wardrobe.any (fun item => item.id == g.id) then s.wardrobe
          else s.wardrobe ++ [g]).countP (fun w => w.id == gid) ≤ 1
    split
    · exact hs
    · rename_i hany
      rw [List.countP_append]
      have hnone : ∀ x ∈ s.wardrobe, ¬ ((x.id == g.id) = true) := by
        intro x hx
        have hx2 := List.any_eq_false.mp (Bool.eq_false_iff.mpr hany) x hx
        simpa using hx2
      by_cases hgid : g.id = gid
      · have h0 : s.wardrobe.countP (fun w => w.id == gid) = 0 := by
          rw [List.countP_eq_zero]
          intro a ha hcon
          apply hnone a ha
          have ha2 : a.id = gid := by simpa using hcon
          simp [ha2, hgid]
        have h1 : List.countP (fun w => w.id == gid) [g] = 1 := by
          simp [List.countP_cons, hgid]
        rw [h0, h1]
      · have h1 : List.countP (fun w => w.id == gid) [g] = 0 := by
          simp [List.countP_cons, hgid]
        rw [h1]
        simpa using hs

theorem step_wardrobe_countP (dw : List WardrobeItem) (gid : String) (op : Op)
    {s : AppState}
    (hdw : dw.countP (fun w => w.id == gid) ≤ 1)
    (hs : s.wardrobe.countP (fun w => w.id == gid) ≤ 1) :
    (step dw op s).wardrobe.countP (fun w => w.id == gid) ≤ 1 := by
  cases op with
  | modelFinalized url => exact hs
  | startOver => exact hdw
  | garmentSelect g res =>
    show (handleGarmentSelect g res s).wardrobe.countP (fun w => w.id == gid) ≤ 1
    unfold handleGarmentSelect
    split
    · exact hs
    · split
      · split
        · exact hs
        · exact garmentGenerate_wardrobe_countP g res s gid hs
      · exact garmentGenerate_wardrobe_countP g res s gid hs
  | poseSelect i res =>
    show (handlePoseSelect i res s).wardrobe.countP (fun w => w.id == gid) ≤ 1
    rw [handlePoseSelect_wardrobe]
    exact hs
  | imageAdjustment res =>
    show (handleImageAdjustment res s).wardrobe.countP (fun w => w.id == gid) ≤ 1
    rw [handleImageAdjustment_wardrobe]
    exact hs
  | regenerate res =>
    show (handleRegenerate res s).wardrobe.countP (fun w => w.id == gid) ≤ 1
    rw [handleRegenerate_wardrobe]
    exact hs
  | undo =>
    show (handleUndo s).wardrobe.countP (fun w => w.id == gid) ≤ 1
    rw [handleUndo_wardrobe]
    exact hs
  | redo =>
    show (handleRedo s).wardrobe.countP (fun w => w.id == gid) ≤ 1
    rw [handleRedo_wardrobe]
    exact hs

theorem applyOps_wardrobe_countP (dw : List WardrobeItem) (gid : String) (ops : List Op)
    {s : AppState}
    (hdw : dw.countP (fun w => w.id == gid) ≤ 1)
    (hs : s.wardrobe.countP (fun w => w.id == gid) ≤ 1) :
    (applyOps dw ops s).wardrobe.countP (fun w => w.id == gid) ≤ 1 := by
  induction ops generalizing s with
  | nil => exact hs
  | cons op rest ih => exact ih (step_wardrobe_countP dw gid op hdw hs)

/-- C8: starting from a default wardrobe holding at most one entry with a
given garment id, no sequence of operations, whatever branches it navigates,
ever yields a wardrobe with two entries carrying that id. -/
theorem wardrobe_dedup (dw : List WardrobeItem) (gid : String) (ops : List Op)
    (hdw : dw.countP (fun w => w.id == gid) ≤ 1) :
    (applyOps dw ops (initState dw)).wardrobe.countP (fun w => w.id == gid) ≤ 1 :=
  applyOps_wardrobe_countP dw gid ops hdw hdw

/-- C8 witness: the same garment is applied on two different branches, split
by an undo and an adjustment in between; the wardrobe keeps one entry. -/
theorem wardrobe_dedup_witness :
    ([] : List WardrobeItem).countP (fun w => w.id == "g1") ≤ 1 ∧
    (applyOps []
      [Op.modelFinalized "base",
       Op.garmentSelect sampleGarment (.ok "img1"),
       Op.undo,
       Op.imageAdjustment (.ok "img2"),
       Op.garmentSelect sampleGarment (.ok "img3")]
      (initState [])).wardrobe.countP (fun w => w.id == "g1") ≤ 1 := by
  refine ⟨by decide, wardrobe_dedup [] "g1"
    [Op.modelFinalized "base",
     Op.garmentSelect sampleGarment (.ok "img1"),
     Op.undo,
     Op.imageAdjustment (.ok "img2"),
     Op.garmentSelect sampleGarment (.ok "img3")] (by decide)⟩

/-! Tip invariant and the undo/redo round trip. -/

/-- The current index sits at the tip of the history. -/
def atTip (s : AppState) : Prop :=
  s.currentOutfitIndex + 1 = s.outfitHistory.length

theorem ga_step_tip (dw : List WardrobeItem) (op : Op) {s : AppState}
    (hga : isGAOp op = true) (htip : atTip s) : atTip (step dw op s) := by
  cases op with
  | modelFinalized url => simp [isGAOp] at hga
  | startOver => simp [isGAOp] at hga
  | poseSelect i res => simp [isGAOp] at hga
  | regenerate res => simp [isGAOp] at hga
  | undo => simp [isGAOp] at hga
  | redo => simp [isGAOp] at hga
  | garmentSelect g res =>
    show atTip (handleGarmentSelect g res s)
    unfold handleGarmentSelect
    split
    · exact htip
    · split
      · rename_i nextL hnext
        exfalso
        have hlt := (List.getElem?_eq_some_iff.mp hnext).1
        unfold atTip at htip
        omega
      · cases res with
        | error e => exact htip
        | ok img =>
          unfold atTip at htip ⊢
          simp [garmentGenerate, List.length_take]
          omega
  | imageAdjustment res =>
    show atTip (handleImageAdjustment res s)
    unfold handleImageAdjustment
    split
    · exact htip
    · split
      · split
        · unfold atTip at htip ⊢
          simp [List.length_take]
          omega
        · exact htip
      · exact htip

theorem applyOps_ga_tip (dw : List WardrobeItem) (ops : List Op) {s : AppState}
    (hga : ∀ op ∈ ops, isGAOp op = true) (htip : atTip s) :
    atTip (applyOps dw ops s) := by
  induction ops generalizing s with
  | nil => exact htip
  | cons op rest ih =>
    exact ih (fun o ho => hga o (List.mem_cons_of_mem _ ho))
      (ga_step_tip dw op (hga op (List.mem_cons_self _ _)) htip)

theorem handleUndo_outfitHistory (s : AppState) :
    (handleUndo s).outfitHistory = s.outfitHistory := by
  unfold handleUndo
  split <;> rfl

theorem handleRedo_outfitHistory (s : AppState) :
    (handleRedo s).outfitHistory = s.outfitHistory := by
  unfold handleRedo
  split <;> rfl

theorem undo_redo_of_tip {s : AppState} (htip : atTip s) :
    (handleRedo (handleUndo s)).outfitHistory = s.outfitHistory ∧
    (handleRedo (handleUndo s)).currentOutfitIndex = s.currentOutfitIndex := by
  refine ⟨by rw [handleRedo_outfitHistory, handleUndo_outfitHistory], ?_⟩
  unfold atTip at htip
  by_cases h0 : 0 < s.currentOutfitIndex
  · have hu : handleUndo s = { s with currentOutfitIndex := s.currentOutfitIndex - 1 } := by
      unfold handleUndo
      rw [if_pos h0]
    rw [hu]
    unfold handleRedo
    have hc : ({ s with currentOutfitIndex := s.currentOutfitIndex - 1 } : AppState).currentOutfitIndex + 1 <
        ({ s with currentOutfitIndex := s.currentOutfitIndex - 1 } : AppState).outfitHistory.length := by
      simp
      omega
    rw [if_pos hc]
    simp
    omega
  · have hu : handleUndo s = s := by
      unfold handleUndo
      rw [if_neg h0]
    rw [hu]
    unfold handleRedo
    have hc : ¬ (s.currentOutfitIndex + 1 < s.outfitHistory.length) := by omega
    rw [if_neg hc]

/-- C3: after initializing the history and running any sequence of
garment-apply and image-adjustment operations, each of which leaves the index
at the tip, an undo followed by a redo restores the history and the current
index exactly. -/
theorem undo_redo_roundtrip (dw : List WardrobeItem) (url : String) (s0 : AppState)
    (ops : List Op) (hga : ∀ op ∈ ops, isGAOp op = true) :
    (handleRedo (handleUndo (applyOps dw ops (handleModelFinalized url s0)))).outfitHistory =
      (applyOps dw ops (handleModelFinalized url s0)).outfitHistory ∧
    (handleRedo (handleUndo (applyOps dw ops (handleModelFinalized url s0)))).currentOutfitIndex =
      (applyOps dw ops (handleModelFinalized url s0)).currentOutfitIndex := by
  have htip0 : atTip (handleModelFinalized url s0) := by
    unfold atTip handleModelFinalized
    rfl
  exact undo_redo_of_tip (applyOps_ga_tip dw ops hga htip0)

/-- C3 witness: a garment apply then an adjustment, undone and redone. -/
theorem undo_redo_roundtrip_witness :
    (∀ op ∈ [Op.garmentSelect sampleGarment (.ok "img1"), Op.imageAdjustment (.ok "img2")],
      isGAOp op = true) ∧
    (handleRedo (handleUndo (applyOps []
        [Op.garmentSelect sampleGarment (.ok "img1"), Op.imageAdjustment (.ok "img2")]
        (handleModelFinalized "base" (initState []))))).currentOutfitIndex =
      (applyOps []
        [Op.garmentSelect sampleGarment (.ok "img1"), Op.imageAdjustment (.ok "img2")]
        (handleModelFinalized "base" (initState []))).currentOutfitIndex := by
  refine ⟨by decide, (undo_redo_roundtrip [] "base" (initState [])
    [Op.garmentSelect sampleGarment (.ok "img1"), Op.imageAdjustment (.ok "img2")]
    (by decide)).2⟩

end PortraitStudio
